import Mathlib

/-!
CNRD prototype — verification of the combat/leveling core.

Shallow embedding of the CNRD-PROTOTYPE combat engine (src/daemon.py,
src/combat.py, src/program.py) and proofs about it.

Conventions of the embedding:
* Python `int` values are modelled as `ℤ` (as `ℕ` for the level, which the
  program only ever sets to values `≥ 1`); Python `float` values are
  modelled as rationals.  In `_calculate_stats`, where the IEEE-754
  rounding of `0.1` is observable through `int()`, every float operation
  is followed by the exact binary64 rounding `rnd64`; in the remaining
  float formulas (damage, capture chance, flee chance) the arithmetic is
  taken over exact rationals, where the proved statements are robust to
  the rounding (clamps and inequalities with slack).
* Python `int(x)` (truncation toward zero) is `pyInt`.
* Code that can raise an exception (`ZeroDivisionError` in
  `Daemon.calculate_damage`, `AttributeError` in `Daemon.to_dict`) returns
  an `Option`, with `none` for the raised exception.
* Calls to `random.*` are derandomized: every random draw becomes an
  explicit argument (an accuracy roll, a variance factor, a choice index,
  a capture/flee roll).
-/

namespace CNRD

/-- Python `int(q)`: truncation toward zero. -/
def pyInt (q : ℚ) : ℤ := if 0 ≤ q then ⌊q⌋ else ⌈q⌉

/-- Python `str.lower()` on the ASCII strings of this code base
(equivalent to `String.toLower`, expressed as a structural list map). -/
def py_lower (s : String) : String := String.mk (s.data.map Char.toLower)

/-- Python `str.upper()` on the ASCII strings of this code base
(equivalent to `String.toUpper`, expressed as a structural list map). -/
def py_upper (s : String) : String := String.mk (s.data.map Char.toUpper)

/-- A program record as `Program.to_dict`/`Program.from_dict`
(src/program.py) read and write it: keys `id`, `name`, `power`,
`accuracy`, `type`, `effect`, `description`. -/
structure ProgramRecord where
  id : String
  name : String
  power : ℤ
  accuracy : ℤ
  type : String
  effect : String
  description : String
deriving DecidableEq, Repr

/-- Modelled from the spec: the `Program` class header and constructor are
absent from src/program.py (the file is a fragment holding only `to_dict`
and `from_dict`); spec §3 describes a Program as an immutable value holding
identifier, display name, type tag, power, accuracy, effect kind and
description, so the constructor stores its seven arguments verbatim.
src/daemon.py's `Program.__init__` (present in src/) stores the same seven
fields. -/
structure Program where
  id : String
  name : String
  power : ℤ
  accuracy : ℤ
  type : String
  effect : String
  description : String
deriving DecidableEq, Repr

/-- `Program.to_dict`, src/program.py: note `"id": self.id.lower()`. -/
def Program.to_dict (p : Program) : ProgramRecord :=
  { id := py_lower p.id
    name := p.name
    power := p.power
    accuracy := p.accuracy
    type := p.type
    effect := p.effect
    description := p.description }

/-- `Program.from_dict`, src/program.py (a well-formed record supplies
every key, so the `data.get` defaults never fire). -/
def Program.from_dict (r : ProgramRecord) : Program :=
  { id := r.id
    name := r.name
    power := r.power
    accuracy := r.accuracy
    type := r.type
    effect := r.effect
    description := r.description }

/-- The daemon state: the attributes assigned by `Daemon.__init__`,
`_calculate_stats`, `from_dict` (src/daemon.py).  `xp_next_level` is
`Option` because `__init__` never assigns that attribute (it assigns
`xp_needed`); `to_dict` reads `xp_next_level` and raises `AttributeError`
when it was never set, so `none` models the absent attribute. -/
structure Daemon where
  name : String
  types : List String
  level : ℕ
  base_hp : ℤ
  base_attack : ℤ
  base_defense : ℤ
  base_speed : ℤ
  base_special : ℤ
  capture_rate : ℤ
  programs : List Program
  max_hp : ℤ
  attack : ℤ
  defense : ℤ
  speed : ℤ
  special : ℤ
  hp : ℤ
  xp : ℤ
  xp_next_level : Option ℤ
  status_effect : Option String
deriving DecidableEq, Repr

/-- Round half to even to an integer (the tie-breaking rule of
IEEE-754 round-to-nearest). -/
def rhe (x : ℚ) : ℤ :=
  let f := ⌊x⌋
  if x - f < 1/2 then f
  else if 1/2 < x - f then f + 1
  else if f % 2 = 0 then f else f + 1

/-- Round a positive rational to the nearest binary64 value: scale into
the 53-bit significand range by the power of two given by `Int.log 2`,
round to the nearest integer significand (ties to even), and scale
back. -/
def rnd64pos (q : ℚ) : ℚ :=
  let s : ℤ := 52 - Int.log 2 q
  ((rhe (q * (2:ℚ)^s) : ℤ) : ℚ) * (2:ℚ)^(-s)

/-- Round a rational to the nearest IEEE-754 binary64 value — the
rounding Python applies to the result of every float operation (and to
an int→float conversion).  Overflow to infinity and subnormal underflow
are not modelled: every intermediate value of the stat formula stays in
the normal range for the levels and base stats a daemon object ever
holds. -/
def rnd64 (q : ℚ) : ℚ :=
  if q = 0 then 0 else if 0 < q then rnd64pos q else -(rnd64pos (-q))

/-- The binary64 value of the Python literal `0.1`:
`3602879701896397 · 2⁻⁵⁵` (the nearest double to 1/10). -/
def tenth64 : ℚ := 3602879701896397 / 36028797018963968

/-- The level multiplier of `Daemon._calculate_stats`
(src/daemon.py line 268): `1 + (self.level - 1) * 0.1`, evaluated the
way Python floats evaluate it — the int `self.level - 1` is converted to
float (a binary64 rounding), multiplied by the double `0.1` (rounded),
and added to `1` (rounded). -/
def level_multiplier (level : ℕ) : ℚ :=
  rnd64 (1 + rnd64 (rnd64 ((level : ℚ) - 1) * tenth64))

/-- `Daemon._calculate_stats` (src/daemon.py lines 266-274): each derived
stat is `int(base * level_multiplier)` — the int base is converted to
float (rounded), multiplied by the float multiplier (rounded), and
truncated by `int()`. -/
def calculate_stats (d : Daemon) : Daemon :=
  let m := level_multiplier d.level
  { d with
    max_hp := pyInt (rnd64 (rnd64 (d.base_hp : ℚ) * m))
    attack := pyInt (rnd64 (rnd64 (d.base_attack : ℚ) * m))
    defense := pyInt (rnd64 (rnd64 (d.base_defense : ℚ) * m))
    speed := pyInt (rnd64 (rnd64 (d.base_speed : ℚ) * m))
    special := pyInt (rnd64 (rnd64 (d.base_special : ℚ) * m)) }

/-- `Daemon._calculate_xp_needed` (src/daemon.py lines 276-279):
`100 + (self.level - 1) * 50`.  The source stores the result in the
attribute `self.xp_needed`; since its only two write sites (`__init__` and
`level_up`) both assign exactly `_calculate_xp_needed()` right after
setting `level`, the attribute always equals this function of the level
and we model it as derived.  (`from_dict` writes the *different* attribute
`xp_next_level`, modelled as its own field.) -/
def xp_needed (d : Daemon) : ℤ := 100 + ((d.level : ℤ) - 1) * 50

/-- `Daemon.__init__` (src/daemon.py lines 127-165): store the base data,
compute derived stats, set `hp` to `max_hp`, zero the XP, no status. -/
def Daemon.init (name : String) (types : List String) (level : ℕ)
    (base_hp base_attack base_defense base_speed base_special : ℤ)
    (capture_rate : ℤ) (programs : List Program) : Daemon :=
  let d0 : Daemon :=
    { name := name, types := types, level := level
      base_hp := base_hp, base_attack := base_attack
      base_defense := base_defense, base_speed := base_speed
      base_special := base_special, capture_rate := capture_rate
      programs := programs
      max_hp := 0, attack := 0, defense := 0, speed := 0, special := 0
      hp := 0, xp := 0, xp_next_level := none, status_effect := none }
  let d1 := calculate_stats d0
  { d1 with hp := d1.max_hp }

/-- `Daemon.is_fainted` (src/daemon.py lines 320-322). -/
def is_fainted (d : Daemon) : Bool := d.hp ≤ 0

/-- `Daemon.take_damage` (src/daemon.py lines 324-331): subtract, floor at
0, return whether the daemon fainted as a result. -/
def take_damage (d : Daemon) (amount : ℤ) : Daemon × Bool :=
  let hp1 := d.hp - amount
  let hp2 := if hp1 < 0 then 0 else hp1
  let d1 := { d with hp := hp2 }
  (d1, is_fainted d1)

/-- `Daemon.level_up` (src/daemon.py lines 290-318): subtract the XP
threshold, bump the level, recompute the derived stats, restore `hp` to
the new `max_hp`. -/
def level_up (d : Daemon) : Daemon :=
  let d1 := { d with xp := d.xp - xp_needed d, level := d.level + 1 }
  let d2 := calculate_stats d1
  { d2 with hp := d2.max_hp }

/-- The `while self.xp >= self.xp_needed: self.level_up()` loop of
`Daemon.gain_xp` (src/daemon.py lines 287-288). -/
def level_loop (d : Daemon) : Daemon :=
  if h : xp_needed d ≤ d.xp then level_loop (level_up d) else d
termination_by d.xp.toNat
decreasing_by
  simp only [level_up, calculate_stats, xp_needed] at *
  omega

/-- `Daemon.gain_xp` (src/daemon.py lines 281-288): add the amount, then
level up while over the threshold. -/
def gain_xp (d : Daemon) (amount : ℤ) : Daemon :=
  level_loop { d with xp := d.xp + amount }

/-- The `TYPE_CHART` dictionary (src/daemon.py lines 10-74). -/
def TYPE_CHART : List (String × List (String × ℚ)) :=
  [ ("VIRUS",
      [("VIRUS", 1), ("FIREWALL", 1/2), ("CRYPTO", 1), ("TROJAN", 1),
       ("NEURAL", 2), ("SHELL", 1/2), ("GHOST", 1/2)])
  , ("FIREWALL",
      [("VIRUS", 2), ("FIREWALL", 1/2), ("CRYPTO", 1/2), ("TROJAN", 2),
       ("NEURAL", 1), ("SHELL", 1), ("GHOST", 1)])
  , ("CRYPTO",
      [("VIRUS", 1), ("FIREWALL", 2), ("CRYPTO", 1/2), ("TROJAN", 1/2),
       ("NEURAL", 1), ("SHELL", 1), ("GHOST", 2)])
  , ("TROJAN",
      [("VIRUS", 1), ("FIREWALL", 1/2), ("CRYPTO", 2), ("TROJAN", 1/2),
       ("NEURAL", 2), ("SHELL", 1), ("GHOST", 1/2)])
  , ("NEURAL",
      [("VIRUS", 1/2), ("FIREWALL", 1), ("CRYPTO", 1), ("TROJAN", 1/2),
       ("NEURAL", 1), ("SHELL", 2), ("GHOST", 2)])
  , ("SHELL",
      [("VIRUS", 2), ("FIREWALL", 1), ("CRYPTO", 1), ("TROJAN", 1),
       ("NEURAL", 1/2), ("SHELL", 1/2), ("GHOST", 1)])
  , ("GHOST",
      [("VIRUS", 2), ("FIREWALL", 1), ("CRYPTO", 1/2), ("TROJAN", 2),
       ("NEURAL", 1/2), ("SHELL", 1), ("GHOST", 1)]) ]

/-- `TYPE_CHART.get(program.type.upper(), {})` — a missing attacking type
gives the empty dict. -/
def chartRow (t : String) : List (String × ℚ) :=
  ((TYPE_CHART.lookup t).getD [])

/-- The type-effectiveness product of `Daemon.calculate_damage`
(src/daemon.py lines 349-351): starts at 1.0 and multiplies the chart
lookup (default 1.0) for each of the target's types. -/
def type_effect_mult (ptype : String) (targetTypes : List String) : ℚ :=
  targetTypes.foldl
    (fun acc tt => acc * (((chartRow (py_upper ptype)).lookup (py_upper tt)).getD 1)) 1

/-- `Daemon.calculate_damage` (src/daemon.py lines 346-363).  The random
variance `random.uniform(0.85, 1.00)` is the explicit argument `variance`.
The expression `self.attack / target.defense` raises `ZeroDivisionError`
when `target.defense == 0`; that exception is the `none` result. -/
def calculate_damage (self : Daemon) (program : Program) (target : Daemon)
    (variance : ℚ) : Option ℤ :=
  let type_effectiveness := type_effect_mult program.type target.types
  let stab_bonus : ℚ := if program.type ∈ self.types then 3/2 else 1
  if target.defense = 0 then none
  else
    let damage : ℚ :=
      ((((2 * (self.level : ℚ)) / 5 + 2) * (program.power : ℚ)
        * ((self.attack : ℚ) / (target.defense : ℚ))) / 50) + 2
    some (max 1 (pyInt (damage * stab_bonus * type_effectiveness * variance)))

/-- Result record of `Daemon.use_program` (src/daemon.py lines 365-422);
the fields the combat loop reads. -/
structure UseResult where
  hit : Bool
  damage : Option ℤ
  effect_applied : Option String
deriving DecidableEq, Repr

/-- `Daemon.use_program` (src/daemon.py lines 365-422).  `accRoll` is the
draw of `random.randint(1, 100)`; `variance` is the damage variance draw.
`none` propagates the `ZeroDivisionError` from `calculate_damage`.
An unknown effect string resets `hit` to `False` (lines 417-420). -/
def use_program (self : Daemon) (program : Program) (target : Daemon)
    (accRoll : ℤ) (variance : ℚ) : Option UseResult :=
  if program ∉ self.programs then
    some { hit := false, damage := none, effect_applied := none }
  else if program.accuracy < accRoll then
    some { hit := false, damage := none, effect_applied := none }
  else if program.effect = "damage" then
    match calculate_damage self program target variance with
    | none => none
    | some d => some { hit := true, damage := some d, effect_applied := none }
  else if program.effect = "defend" then
    some { hit := true, damage := none, effect_applied := some "boost_defense" }
  else if program.effect = "special" then
    some { hit := true, damage := none, effect_applied := some "lower_attack" }
  else
    some { hit := false, damage := none, effect_applied := none }

/-- A combatant record with exactly the keys `Daemon.to_dict`
(src/daemon.py lines 424-441) writes and `Daemon.from_dict` (lines
443-472) reads: name, level, types, hp, max_hp, attack, defense, speed,
xp, xp_next_level, programs, status_effect. -/
structure DaemonRecord where
  name : String
  level : ℕ
  types : List String
  hp : ℤ
  max_hp : ℤ
  attack : ℤ
  defense : ℤ
  speed : ℤ
  xp : ℤ
  xp_next_level : ℤ
  programs : List ProgramRecord
  status_effect : Option String
deriving DecidableEq, Repr

/-- `Daemon.to_dict` (src/daemon.py lines 424-441).  It reads
`self.xp_next_level`; on a daemon on which that attribute was never
assigned (for example one built by `__init__`, which assigns `xp_needed`
instead) the read raises `AttributeError`, hence the `Option`.  Note that
`special`, the base stats and `capture_rate` are not persisted. -/
def Daemon.to_dict (d : Daemon) : Option DaemonRecord :=
  match d.xp_next_level with
  | none => none
  | some xnl =>
    some { name := d.name
           level := d.level
           types := d.types
           hp := d.hp
           max_hp := d.max_hp
           attack := d.attack
           defense := d.defense
           speed := d.speed
           xp := d.xp
           xp_next_level := xnl
           programs := d.programs.map Program.to_dict
           status_effect := d.status_effect }

/-- `Daemon.from_dict` (src/daemon.py lines 443-472): rebuild the programs
with `program.py`'s `Program.from_dict`, construct the daemon through
`__init__` with default base stats (all 0) and default `capture_rate`
(100), then overwrite `hp`, `max_hp`, `attack`, `defense`, `speed`, `xp`,
`xp_next_level` and `status_effect` from the record (`special` is not
overwritten). -/
def Daemon.from_dict (r : DaemonRecord) : Daemon :=
  let programs := r.programs.map Program.from_dict
  let d := Daemon.init r.name r.types r.level 0 0 0 0 0 100 programs
  { d with
    hp := r.hp
    max_hp := r.max_hp
    attack := r.attack
    defense := r.defense
    speed := r.speed
    xp := r.xp
    xp_next_level := some r.xp_next_level
    status_effect := r.status_effect }

/-! ## The combat engine, src/combat.py -/

/-- The `Combat` object (src/combat.py lines 8-17): the two active
daemons, the turn counter and the two flags.  `__init__` sets `turn = 0`,
`is_wild = True`, `is_training = False`. -/
structure Combat where
  player_daemon : Daemon
  opponent_daemon : Daemon
  turn : ℤ
  is_wild : Bool
  is_training : Bool
deriving DecidableEq, Repr

/-- `Combat._calculate_capture_chance` (src/combat.py lines 194-215).
Pure (the only randomness is in the caller's roll). -/
def calculate_capture_chance (opponent : Daemon) : ℚ :=
  let max_hp := opponent.max_hp
  let current_hp := opponent.hp
  let base_rate := opponent.capture_rate
  let hp_factor : ℚ := ((max_hp : ℚ) * 3 - (current_hp : ℚ) * 2) / ((max_hp : ℚ) * 3)
  let status_bonus : ℚ :=
    if opponent.status_effect = some "LOCKED" then 2
    else if opponent.status_effect = some "CORRUPTED"
         ∨ opponent.status_effect = some "FRAGMENTED" then 3/2
    else 1
  min 1 (((base_rate : ℚ) / 255) * hp_factor * status_bonus)

/-- `Combat._try_to_run` (src/combat.py lines 217-231): chance
`0.9 * speed_ratio` clamped to `[0.1, 1.0]`, success when
`random.random() < chance` (the roll is the argument). -/
def try_to_run (c : Combat) (roll : ℚ) : Bool :=
  let speed_ratio : ℚ := (c.player_daemon.speed : ℚ) / (max 1 c.opponent_daemon.speed : ℤ)
  let chance := min 1 (max (1/10) ((9/10) * speed_ratio))
  roll < chance

/-- One player decision submitted to the `while not valid_choice` prompt
loop of `Combat._player_turn` (src/combat.py lines 71-169), with the
random draws its processing consumes carried alongside: `fight` holds the
1-based program number typed at the prompt, the accuracy roll and the
damage variance; `switch` holds the 1-based daemon number; `capture` and
`run` hold the `random.random()` roll. -/
inductive PDecision where
  | fight (rawChoice : ℤ) (accRoll : ℤ) (variance : ℚ)
  | switch (rawChoice : ℤ)
  | capture (roll : ℚ)
  | run (roll : ℚ)
  | invalid
deriving DecidableEq, Repr

/-- The combat-log lines printed by `Combat.start`, `_player_turn` and
`_opponent_turn` that the verified claims observe, in print order. -/
inductive Event where
  | player_used (prog : String) (damage : Option ℤ)
  | player_missed (prog : String)
  | player_no_programs
  | invalid_program
  | switched (fromName toName : String)
  | no_switch_available
  | invalid_daemon
  | capture_rejected
  | capture_attempt
  | capture_success
  | capture_fail
  | ran_away
  | run_fail
  | invalid_choice
  | opponent_used (prog : String) (damage : Option ℤ)
  | opponent_missed (prog : String)
  | opponent_no_programs
  | opponent_defeated
  | player_defeated_choose_another
  | all_daemons_defeated
deriving DecidableEq, Repr

/-- Result of `Combat._player_turn`: `ret c evs endCombat` models the
method returning `endCombat` (True ends the encounter) with combat state
`c` and printed events `evs`; `err` models an uncaught exception
(`ZeroDivisionError` from the damage formula); `more` models the prompt
loop still waiting when the supplied decisions run out. -/
inductive PTResult where
  | ret (c : Combat) (events : List Event) (endCombat : Bool)
  | err (events : List Event)
  | more (events : List Event)
deriving DecidableEq, Repr

/-- Prefix already-printed events onto a `PTResult` (used when a rejected
decision makes the prompt loop `continue`). -/
def PTResult.withEvents (pre : List Event) : PTResult → PTResult
  | .ret c evs b => .ret c (pre ++ evs) b
  | .err evs => .err (pre ++ evs)
  | .more evs => .more (pre ++ evs)

/-- `Combat._player_turn` (src/combat.py lines 71-169), processing the
queued decisions one prompt iteration at a time.
* `F` (lines 84-115): with no programs, print and return `False`; with an
  out-of-range number, re-prompt; otherwise `use_program` on the opponent
  (its damage is only printed, never applied — the source has no
  `take_damage` call in the combat loop) and return `False`.
* `S` (lines 117-139): filter the roster to non-fainted daemons other than
  the active one; with none, re-prompt; with a valid number, replace
  `self.player_daemon` and return `False`; else re-prompt.
* `C` (lines 141-155): when `not is_wild`, print and re-prompt; otherwise
  roll against `_calculate_capture_chance` — success returns `True`,
  failure returns `False`.
* `R` (lines 157-164): roll `_try_to_run` — success returns `True`,
  failure returns `False`.
* anything else (lines 166-167): re-prompt. -/
def player_turn (c : Combat) (roster : List Daemon) :
    List PDecision → PTResult
  | [] => .more []
  | d :: rest =>
    match d with
    | .fight raw acc var =>
      if c.player_daemon.programs = [] then
        .ret c [.player_no_programs] false
      else
        let idx := raw - 1
        if h : 0 ≤ idx ∧ idx.toNat < c.player_daemon.programs.length then
          let program := c.player_daemon.programs.get ⟨idx.toNat, h.2⟩
          match use_program c.player_daemon program c.opponent_daemon acc var with
          | none => .err []
          | some r =>
            if r.hit then .ret c [.player_used program.name r.damage] false
            else .ret c [.player_missed program.name] false
        else
          (player_turn c roster rest).withEvents [.invalid_program]
    | .switch raw =>
      let healthy := roster.filter
        (fun d2 => !(is_fainted d2) && !(d2 = c.player_daemon : Bool))
      if healthy = [] then
        (player_turn c roster rest).withEvents [.no_switch_available]
      else
        let idx := raw - 1
        if h : 0 ≤ idx ∧ idx.toNat < healthy.length then
          let newD := healthy.get ⟨idx.toNat, h.2⟩
          .ret { c with player_daemon := newD }
            [.switched c.player_daemon.name newD.name] false
        else
          (player_turn c roster rest).withEvents [.invalid_daemon]
    | .capture roll =>
      if c.is_wild = false then
        (player_turn c roster rest).withEvents [.capture_rejected]
      else if roll < calculate_capture_chance c.opponent_daemon then
        .ret c [.capture_attempt, .capture_success] true
      else
        .ret c [.capture_attempt, .capture_fail] false
    | .run roll =>
      if try_to_run c roll then .ret c [.ran_away] true
      else .ret c [.run_fail] false
    | .invalid =>
      (player_turn c roster rest).withEvents [.invalid_choice]

/-- Result of `Combat._opponent_turn`: the source always returns `False`
(the loop never breaks there), so the only outcomes are the updated state
or an uncaught exception. -/
inductive OTResult where
  | ok (c : Combat)
  | err
deriving DecidableEq, Repr

/-- Fallback value for the (unreachable) out-of-range branch of the
derandomized `random.choice`: the choice index is reduced modulo the
positive list length, so this default is never returned. -/
def dummy_program : Program :=
  { id := "", name := "", power := 0, accuracy := 0
    type := "", effect := "", description := "" }

/-- `Combat._opponent_turn` (src/combat.py lines 171-192): with no
programs, print and return; otherwise `random.choice` picks a program —
derandomized as index `odraw % length`, so every program corresponds to
some draw — and `use_program` is applied to the player's daemon (again,
the damage is only printed). -/
def opponent_turn (c : Combat) (odraw : ℕ) (oacc : ℤ) (ovar : ℚ) :
    List Event × OTResult :=
  if c.opponent_daemon.programs = [] then ([.opponent_no_programs], .ok c)
  else
    let program := c.opponent_daemon.programs.getD
      (odraw % c.opponent_daemon.programs.length) dummy_program
    match use_program c.opponent_daemon program c.player_daemon oacc ovar with
    | none => ([], .err)
    | some r =>
      if r.hit then ([.opponent_used program.name r.damage], .ok c)
      else ([.opponent_missed program.name], .ok c)

/-- `Combat._handle_victory` (src/combat.py lines 233-250): XP =
`opponent.level * 15`, `gain_xp`, and on a level gain recompute stats and
heal (both redundant after `gain_xp` but performed by the source). -/
def handle_victory (c : Combat) : Combat :=
  let xp_gain := (c.opponent_daemon.level : ℤ) * 15
  let original_level := c.player_daemon.level
  let pd := gain_xp c.player_daemon xp_gain
  let pd :=
    if original_level < pd.level then
      let pd2 := calculate_stats pd
      { pd2 with hp := pd2.max_hp }
    else pd
  { c with player_daemon := pd }

/-- Outcome of one iteration of the `while True` loop of `Combat.start`
(src/combat.py lines 25-62): continue looping, break because
`_player_turn` returned `True` (capture or flee), break with victory, or
`return False` from the player-fainted check (both of its branches
return `False`). -/
inductive TurnOutcome where
  | next (c : Combat)
  | playerEnded (c : Combat)
  | victory (c : Combat)
  | lost (c : Combat)
  | err
  | needInput
deriving DecidableEq, Repr

/-- One iteration of the combat loop of `Combat.start` (src/combat.py
lines 25-62): increment `turn`, run `_player_turn`; if it returns `True`
break; if the opponent is fainted, `_handle_victory` and break; otherwise
run `_opponent_turn`; if the player's daemon is then fainted, scan the
roster for a healthy daemon (`has_healthy`) and — in *both* branches —
print and `return False`, ending the encounter. -/
def combat_turn (c0 : Combat) (roster : List Daemon) (pds : List PDecision)
    (odraw : ℕ) (oacc : ℤ) (ovar : ℚ) : List Event × TurnOutcome :=
  let c := { c0 with turn := c0.turn + 1 }
  match player_turn c roster pds with
  | .more evs => (evs, .needInput)
  | .err evs => (evs, .err)
  | .ret c1 evs true => (evs, .playerEnded c1)
  | .ret c1 evs false =>
    if is_fainted c1.opponent_daemon then
      (evs ++ [.opponent_defeated], .victory (handle_victory c1))
    else
      match opponent_turn c1 odraw oacc ovar with
      | (oevs, .err) => (evs ++ oevs, .err)
      | (oevs, .ok c2) =>
        if is_fainted c2.player_daemon then
          let has_healthy := roster.any (fun d => !(is_fainted d))
          if has_healthy then
            (evs ++ oevs ++ [.player_defeated_choose_another, .all_daemons_defeated],
             .lost c2)
          else
            (evs ++ oevs ++ [.all_daemons_defeated], .lost c2)
        else (evs ++ oevs, .next c2)

/-! ## Auxiliary definitions used by the statements -/

/-- The events of a `PTResult`, whatever its outcome. -/
def PTResult.events : PTResult → List Event
  | .ret _ evs _ => evs
  | .err evs => evs
  | .more evs => evs

/-- Events that are the opponent acting (prints of `_opponent_turn`). -/
def Event.isOpponentAction : Event → Bool
  | .opponent_used _ _ => true
  | .opponent_missed _ => true
  | .opponent_no_programs => true
  | _ => false

/-- Events that are the player's combatant acting (prints of the accepted
branches of `_player_turn`). -/
def Event.isPlayerAction : Event → Bool
  | .player_used _ _ => true
  | .player_missed _ => true
  | .player_no_programs => true
  | .switched _ _ => true
  | .capture_attempt => true
  | .capture_success => true
  | .capture_fail => true
  | .ran_away => true
  | .run_fail => true
  | _ => false

/-- `self.xp += amount`, the first statement of `gain_xp`. -/
def add_xp (d : Daemon) (amount : ℤ) : Daemon := { d with xp := d.xp + amount }

/-- Lowercase every program id of a combatant record (the normalization
that `Program.to_dict` applies on re-serialization). -/
def lowercase_prog_ids (r : DaemonRecord) : DaemonRecord :=
  { r with programs := r.programs.map (fun p => { p with id := py_lower p.id }) }

/-! ## Concrete states used by witnesses and counterexamples -/

/-- A damage program of the player's daemon. -/
def zap : Program :=
  { id := "Z1", name := "Zap", power := 40, accuracy := 95
    type := "VIRUS", effect := "damage", description := "zap" }

/-- A damage program of the opposing daemon. -/
def boop : Program :=
  { id := "B1", name := "Boop", power := 35, accuracy := 95
    type := "SHELL", effect := "damage", description := "boop" }

/-- A low-power program known by the low-HP opponent of the AI-policy
counterexample. -/
def weakHit : Program :=
  { id := "W1", name := "Weak", power := 20, accuracy := 95
    type := "SHELL", effect := "damage", description := "weak" }

/-- A high-power program known by the same opponent. -/
def strongHit : Program :=
  { id := "S1", name := "Strong", power := 90, accuracy := 95
    type := "SHELL", effect := "damage", description := "strong" }

/-- A player daemon with speed 10. -/
def playerD : Daemon :=
  { name := "Hero", types := ["VIRUS"], level := 5
    base_hp := 40, base_attack := 50, base_defense := 40
    base_speed := 10, base_special := 50
    capture_rate := 45, programs := [zap]
    max_hp := 56, attack := 50, defense := 40, speed := 10, special := 50
    hp := 56, xp := 0, xp_next_level := none, status_effect := none }

/-- An opposing daemon with speed 100 (faster than `playerD`). -/
def oppD : Daemon :=
  { name := "RatBot", types := ["SHELL"], level := 5
    base_hp := 50, base_attack := 60, base_defense := 40
    base_speed := 100, base_special := 40
    capture_rate := 100, programs := [boop]
    max_hp := 70, attack := 60, defense := 40, speed := 100, special := 40
    hp := 70, xp := 0, xp_next_level := none, status_effect := none }

/-- A wild encounter between `playerD` and `oppD`. -/
def cEx : Combat :=
  { player_daemon := playerD, opponent_daemon := oppD
    turn := 0, is_wild := true, is_training := false }

/-- An opposing daemon with defense 0. -/
def zeroDefD : Daemon := { oppD with defense := 0 }

/-- A fainted player daemon. -/
def faintedD : Daemon := { playerD with name := "Down", hp := 0 }

/-- A healthy roster mate. -/
def healthyD : Daemon := { playerD with name := "Up", hp := 30 }

/-- An opponent with no programs. -/
def oppNoProg : Daemon := { oppD with programs := [] }

/-- The encounter of the fainted-player scenario: active daemon fainted,
a healthy daemon waiting on the roster. -/
def cFaint : Combat :=
  { player_daemon := faintedD, opponent_daemon := oppNoProg
    turn := 0, is_wild := true, is_training := false }

/-- An opponent below 30% HP (5 of 20) knowing a weak and a strong
program. -/
def lowHpOpp : Daemon :=
  { oppD with max_hp := 20, hp := 5, programs := [weakHit, strongHit] }

/-- Encounter against `lowHpOpp`. -/
def cLowHp : Combat := { cEx with opponent_daemon := lowHpOpp }

/-- A trainer (non-wild) encounter, as `create_training_combat` builds
with `combat.is_wild = False` (src/combat.py line 316). -/
def cTrained : Combat := { cEx with is_wild := false }

/-- Opponent with capture rate 200 and a LOCKED status, at 0 HP of 20. -/
def lockedOpp0 : Daemon :=
  { oppD with
    capture_rate := 200, max_hp := 20, hp := 0, status_effect := some "LOCKED" }

/-- Same opponent at 5 HP. -/
def lockedOpp5 : Daemon := { lockedOpp0 with hp := 5 }

/-- Opponent with a negative capture rate. -/
def negRateOpp : Daemon := { oppD with capture_rate := -255, max_hp := 20, hp := 10 }

/-- A level-1 daemon fresh from `Daemon.__init__` (Virulet base stats). -/
def lvlD : Daemon := Daemon.init "V" ["VIRUS"] 1 45 55 40 60 50 45 []

/-- A well-formed combatant record whose program id is lowercase. -/
def recGood : DaemonRecord :=
  { name := "Hero", level := 5, types := ["VIRUS"]
    hp := 33, max_hp := 56, attack := 50, defense := 40, speed := 10
    xp := 20, xp_next_level := 300
    programs := [⟨"z1", "Zap", 40, 95, "VIRUS", "damage", "zap"⟩]
    status_effect := some "CORRUPTED" }

/-- A well-formed combatant record whose program id holds uppercase
letters. -/
def recBad : DaemonRecord :=
  { recGood with programs := [⟨"Z1", "Zap", 40, 95, "VIRUS", "damage", "zap"⟩] }

/-! ## Helper lemmas -/

lemma pyInt_eq_floor (q : ℚ) (h : 0 ≤ q) : pyInt q = ⌊q⌋ := if_pos h

lemma int_log2_eq (q : ℚ) (e : ℤ) (hq : 0 < q)
    (h1 : (2:ℚ)^e ≤ q) (h2 : q < (2:ℚ)^(e+1)) : Int.log 2 q = e := by
  have hA : (2:ℚ)^(Int.log 2 q) ≤ q := Int.zpow_log_le_self (by norm_num) hq
  have hB : q < (2:ℚ)^(Int.log 2 q + 1) := Int.lt_zpow_succ_log_self (by norm_num) q
  by_contra hne
  rcases lt_or_gt_of_ne hne with hlt | hgt
  · have hle : (2:ℚ)^(Int.log 2 q + 1) ≤ (2:ℚ)^e :=
      zpow_le_zpow_right₀ (by norm_num) (by omega)
    linarith
  · have hle : (2:ℚ)^(e + 1) ≤ (2:ℚ)^(Int.log 2 q) :=
      zpow_le_zpow_right₀ (by norm_num) (by omega)
    linarith

lemma rnd64_pos_eval (q : ℚ) (e : ℤ) (hq : 0 < q)
    (h1 : (2:ℚ)^e ≤ q) (h2 : q < (2:ℚ)^(e+1)) :
    rnd64 q = ((rhe (q * (2:ℚ)^(52 - e)) : ℤ) : ℚ) * (2:ℚ)^(-(52 - e)) := by
  rw [rnd64, if_neg hq.ne', if_pos hq, rnd64pos, int_log2_eq q e hq h1 h2]

lemma rhe_nonneg (x : ℚ) (hx : 0 ≤ x) : 0 ≤ rhe x := by
  have hf : (0:ℤ) ≤ ⌊x⌋ := Int.floor_nonneg.mpr hx
  simp only [rhe]
  split_ifs <;> omega

lemma rnd64_nonneg (q : ℚ) (h : 0 ≤ q) : 0 ≤ rnd64 q := by
  rcases eq_or_lt_of_le h with h0 | hpos
  · simp [rnd64, ← h0]
  · rw [rnd64, if_neg hpos.ne', if_pos hpos, rnd64pos]
    have hx : (0:ℚ) ≤ q * (2:ℚ)^(52 - Int.log 2 q) :=
      mul_nonneg hpos.le (zpow_pos (by norm_num) _).le
    have hm := rhe_nonneg _ hx
    exact mul_nonneg (by exact_mod_cast hm) (zpow_pos (by norm_num) _).le

lemma level_multiplier_nonneg (l : ℕ) (hl : 1 ≤ l) : 0 ≤ level_multiplier l := by
  unfold level_multiplier
  apply rnd64_nonneg
  have h1 : (0:ℚ) ≤ (l : ℚ) - 1 := by
    have : (1:ℚ) ≤ (l : ℚ) := by exact_mod_cast hl
    linarith
  have h3 : (0:ℚ) ≤ rnd64 ((l : ℚ) - 1) * tenth64 :=
    mul_nonneg (rnd64_nonneg _ h1) (by norm_num [tenth64])
  have h4 := rnd64_nonneg _ h3
  linarith

lemma float_stat_eq (b : ℤ) (l : ℕ) (hb : 0 ≤ b) (hl : 1 ≤ l) :
    pyInt (rnd64 (rnd64 (b : ℚ) * level_multiplier l))
      = ⌊rnd64 (rnd64 (b : ℚ) * level_multiplier l)⌋ := by
  apply pyInt_eq_floor
  exact rnd64_nonneg _ (mul_nonneg (rnd64_nonneg _ (by exact_mod_cast hb))
    (level_multiplier_nonneg l hl))

/-! ## C1: the damage computation -/

/-- C1 (amended): whenever the target's defense stat is nonzero, the
damage computed by `Daemon.calculate_damage` is defined and at least 1,
for every attacker, program, target and variance draw.  (As stated the
claim is false: at defense = 0 the computation raises `ZeroDivisionError`
instead of producing a value — see the counterexample.) -/
theorem calculate_damage_min_one (self : Daemon) (program : Program)
    (target : Daemon) (variance : ℚ) (h : target.defense ≠ 0) :
    ∃ dmg, calculate_damage self program target variance = some dmg ∧ 1 ≤ dmg := by
  unfold calculate_damage
  simp only [if_neg h]
  exact ⟨_, rfl, le_max_left _ _⟩

/-- C1 witness: the amended theorem applied to the concrete encounter
`playerD` attacking `oppD` (defense 40) with `zap` at variance 1. -/
theorem calculate_damage_min_one_witness :
    oppD.defense ≠ 0 ∧
    ∃ dmg, calculate_damage playerD zap oppD 1 = some dmg ∧ 1 ≤ dmg :=
  ⟨by decide, calculate_damage_min_one playerD zap oppD 1 (by decide)⟩

/-- C1 counterexample: against a defender whose defense stat is 0 the
computation fails (Python raises `ZeroDivisionError` at
`self.attack / target.defense`, src/daemon.py line 360) instead of
returning a damage value — both in `calculate_damage` itself and through
a hit in `use_program` (accuracy roll 50 ≤ 95, so the hit is registered
before the formula is evaluated). -/
theorem calculate_damage_defense_zero_fails :
    calculate_damage playerD zap zeroDefD 1 = none ∧
    use_program playerD zap zeroDefD 50 1 = none := by
  exact ⟨rfl, rfl⟩

/-! ## C10: take_damage -/

/-- C10: starting from `0 ≤ hp ≤ max_hp` and a non-negative damage
amount, `Daemon.take_damage` leaves `0 ≤ hp ≤ max_hp` (HP is floored at
0), and its boolean result is `true` exactly when the resulting HP is 0. -/
theorem take_damage_hp_invariant (d : Daemon) (amount : ℤ)
    (h0 : 0 ≤ d.hp) (hM : d.hp ≤ d.max_hp) (ha : 0 ≤ amount) :
    0 ≤ (take_damage d amount).1.hp ∧
    (take_damage d amount).1.hp ≤ (take_damage d amount).1.max_hp ∧
    ((take_damage d amount).2 = true ↔ (take_damage d amount).1.hp = 0) := by
  simp only [take_damage, is_fainted, decide_eq_true_eq]
  split_ifs with h <;> simp <;> omega

/-- C10 witness: `playerD` (hp 56 of 56) takes 60 damage. -/
theorem take_damage_hp_invariant_witness :
    (0 ≤ playerD.hp ∧ playerD.hp ≤ playerD.max_hp ∧ 0 ≤ (60 : ℤ)) ∧
    (0 ≤ (take_damage playerD 60).1.hp ∧
     (take_damage playerD 60).1.hp ≤ (take_damage playerD 60).1.max_hp ∧
     ((take_damage playerD 60).2 = true ↔ (take_damage playerD 60).1.hp = 0)) :=
  ⟨by decide, take_damage_hp_invariant playerD 60 (by decide) (by decide) (by decide)⟩

/-! ## C9: capture is rejected outside wild encounters -/

/-- C9: in every combat state with `is_wild = false`, submitting a
`Capture` decision to the player prompt loop is rejected with a
re-prompt: the loop prints the rejection and continues with the remaining
decisions against the *same* state, so no combatant changes and the
session cannot end in a capture from that decision. -/
theorem capture_rejected_when_not_wild (c : Combat) (roster : List Daemon)
    (roll : ℚ) (rest : List PDecision) (h : c.is_wild = false) :
    player_turn c roster (.capture roll :: rest)
      = (player_turn c roster rest).withEvents [.capture_rejected] := by
  simp [player_turn, h]

/-- C9 witness: the trained encounter `cTrained` rejects a capture
decision. -/
theorem capture_rejected_when_not_wild_witness :
    cTrained.is_wild = false ∧
    player_turn cTrained [] [.capture 0]
      = (player_turn cTrained [] []).withEvents [.capture_rejected] :=
  ⟨rfl, capture_rejected_when_not_wild cTrained [] 0 [] rfl⟩

/-! ## C8: the derived-stat formula -/

/-- C8 (amended): for every combatant of level ≥ 1 with non-negative
base stats, each of the five derived stats computed by
`_calculate_stats` equals the floor of the *binary64* evaluation of
`base * (1 + (level - 1) * 0.1)` — the base converted to float,
`(level-1) * 0.1` and each subsequent operation rounded to the nearest
double — and the recomputation performed on a level-up uses exactly the
same formula at the new level.  (As stated, with exact real arithmetic
inside the floor, the claim is false of the program: IEEE-754 rounding
makes `int(45 * (1 + 4*0.1))` evaluate to 62, not `⌊45 · 1.4⌋ = 63` —
see the counterexample.) -/
theorem derived_stats_binary64_formula (d : Daemon) (hl : 1 ≤ d.level)
    (h1 : 0 ≤ d.base_hp) (h2 : 0 ≤ d.base_attack) (h3 : 0 ≤ d.base_defense)
    (h4 : 0 ≤ d.base_speed) (h5 : 0 ≤ d.base_special) :
    ((calculate_stats d).max_hp
        = ⌊rnd64 (rnd64 (d.base_hp : ℚ) * rnd64 (1 + rnd64 (rnd64 ((d.level : ℚ) - 1) * tenth64)))⌋ ∧
     (calculate_stats d).attack
        = ⌊rnd64 (rnd64 (d.base_attack : ℚ) * rnd64 (1 + rnd64 (rnd64 ((d.level : ℚ) - 1) * tenth64)))⌋ ∧
     (calculate_stats d).defense
        = ⌊rnd64 (rnd64 (d.base_defense : ℚ) * rnd64 (1 + rnd64 (rnd64 ((d.level : ℚ) - 1) * tenth64)))⌋ ∧
     (calculate_stats d).speed
        = ⌊rnd64 (rnd64 (d.base_speed : ℚ) * rnd64 (1 + rnd64 (rnd64 ((d.level : ℚ) - 1) * tenth64)))⌋ ∧
     (calculate_stats d).special
        = ⌊rnd64 (rnd64 (d.base_special : ℚ) * rnd64 (1 + rnd64 (rnd64 ((d.level : ℚ) - 1) * tenth64)))⌋) ∧
    ((level_up d).max_hp
        = ⌊rnd64 (rnd64 (d.base_hp : ℚ) * rnd64 (1 + rnd64 (rnd64 (((d.level : ℚ) + 1) - 1) * tenth64)))⌋ ∧
     (level_up d).attack
        = ⌊rnd64 (rnd64 (d.base_attack : ℚ) * rnd64 (1 + rnd64 (rnd64 (((d.level : ℚ) + 1) - 1) * tenth64)))⌋ ∧
     (level_up d).defense
        = ⌊rnd64 (rnd64 (d.base_defense : ℚ) * rnd64 (1 + rnd64 (rnd64 (((d.level : ℚ) + 1) - 1) * tenth64)))⌋ ∧
     (level_up d).speed
        = ⌊rnd64 (rnd64 (d.base_speed : ℚ) * rnd64 (1 + rnd64 (rnd64 (((d.level : ℚ) + 1) - 1) * tenth64)))⌋ ∧
     (level_up d).special
        = ⌊rnd64 (rnd64 (d.base_special : ℚ) * rnd64 (1 + rnd64 (rnd64 (((d.level : ℚ) + 1) - 1) * tenth64)))⌋) := by
  have e : ((d.level + 1 : ℕ) : ℚ) - 1 = ((d.level : ℚ) + 1) - 1 := by push_cast; ring
  constructor
  · exact ⟨float_stat_eq _ _ h1 hl, float_stat_eq _ _ h2 hl, float_stat_eq _ _ h3 hl,
      float_stat_eq _ _ h4 hl, float_stat_eq _ _ h5 hl⟩
  · refine ⟨?_, ?_, ?_, ?_, ?_⟩ <;>
    · show pyInt (rnd64 (_ * level_multiplier (d.level + 1))) = _
      rw [float_stat_eq _ _ (by assumption) (by omega)]
      simp only [level_multiplier, e]

/-- C8 witness: the amended formula evaluated on the level-5 `playerD`. -/
theorem derived_stats_binary64_formula_witness :
    (1 ≤ playerD.level ∧ 0 ≤ playerD.base_hp ∧ 0 ≤ playerD.base_attack ∧
     0 ≤ playerD.base_defense ∧ 0 ≤ playerD.base_speed ∧ 0 ≤ playerD.base_special) ∧
    (calculate_stats playerD).max_hp
      = ⌊rnd64 (rnd64 (playerD.base_hp : ℚ)
          * rnd64 (1 + rnd64 (rnd64 ((playerD.level : ℚ) - 1) * tenth64)))⌋ :=
  ⟨by decide,
   (derived_stats_binary64_formula playerD (by decide) (by decide) (by decide)
     (by decide) (by decide) (by decide)).1.1⟩

lemma rnd64_four : rnd64 (4:ℚ) = 4 := by
  rw [rnd64_pos_eval 4 2 (by norm_num) (by norm_num) (by norm_num)]
  norm_num [rhe]

lemma rnd64_fourtenths : rnd64 ((3602879701896397:ℚ)/9007199254740992)
    = 3602879701896397/9007199254740992 := by
  rw [rnd64_pos_eval _ (-2) (by norm_num) (by norm_num) (by norm_num)]
  norm_num [rhe]

lemma rnd64_multiplier5 : rnd64 ((12610078956637389:ℚ)/9007199254740992)
    = 6305039478318694/4503599627370496 := by
  rw [rnd64_pos_eval _ 0 (by norm_num) (by norm_num) (by norm_num)]
  norm_num [rhe]

lemma rnd64_fortyfive : rnd64 (45:ℚ) = 45 := by
  rw [rnd64_pos_eval 45 5 (by norm_num) (by norm_num) (by norm_num)]
  norm_num [rhe]

lemma rnd64_prod45 : rnd64 ((141863388262170615:ℚ)/2251799813685248)
    = 8866461766385663/140737488355328 := by
  rw [rnd64_pos_eval _ 5 (by norm_num) (by norm_num) (by norm_num)]
  norm_num [rhe]

/-- C8 counterexample: a level-5 combatant with base HP 45 (the base HP
of all three starter daemons).  The stat model computes
`int(45 * (1 + 4*0.1))`; in binary64, `1 + 4*0.1` rounds to
`6305039478318694 / 2⁵²` (≈ 1.3999999999999999) and
`45 * that` rounds to `8866461766385663 / 2⁴⁷` (< 63), so the computed
max HP is 62 — but `⌊45 · (1 + (5-1) · 0.1)⌋ = ⌊63⌋ = 63`.  The derived
stat does *not* equal the exact-arithmetic floor formula. -/
theorem derived_stat_differs_from_exact_floor :
    ({ lvlD with level := 5 } : Daemon).base_hp = 45 ∧
    ({ lvlD with level := 5 } : Daemon).level = 5 ∧
    (calculate_stats { lvlD with level := 5 }).max_hp = 62 ∧
    ⌊(45:ℚ) * (1 + ((5:ℚ) - 1) * (1/10))⌋ = 63 := by
  refine ⟨by decide, by decide, ?_, by norm_num⟩
  have hproj : (calculate_stats { lvlD with level := 5 }).max_hp
      = pyInt (rnd64 (rnd64 ((45:ℤ) : ℚ) * level_multiplier 5)) := rfl
  rw [hproj]
  simp only [level_multiplier]
  rw [(by norm_num : (((5:ℕ)):ℚ) - 1 = (4:ℚ))]
  rw [rnd64_four]
  rw [(by norm_num [tenth64] : (4:ℚ) * tenth64 = (3602879701896397:ℚ)/9007199254740992)]
  rw [rnd64_fourtenths]
  rw [(by norm_num :
    (1:ℚ) + (3602879701896397:ℚ)/9007199254740992 = (12610078956637389:ℚ)/9007199254740992)]
  rw [rnd64_multiplier5]
  rw [(by norm_num : (((45:ℤ)):ℚ) = (45:ℚ))]
  rw [rnd64_fortyfive]
  rw [(by norm_num :
    (45:ℚ) * ((6305039478318694:ℚ)/4503599627370496) = (141863388262170615:ℚ)/2251799813685248)]
  rw [rnd64_prod45]
  norm_num [pyInt]

/-! ## C5: the opponent AI -/

/-- C5 counterexample: an opponent at 5 HP of 20 (below 30% of max HP)
knowing a power-20 program and a power-90 program selects the power-20
program under draw 0 — `random.choice` ignores HP, so the claimed
"pick the highest-power program below 30% HP" policy does not hold. -/
theorem low_hp_opponent_picks_random_program :
    (opponent_turn cLowHp 0 100 1).1 = [Event.opponent_missed "Weak"] ∧
    10 * lowHpOpp.hp < 3 * lowHpOpp.max_hp ∧
    lowHpOpp.programs.map Program.power = [20, 90] := by
  exact ⟨rfl, by decide, rfl⟩

/-! ## C2: record round-trip -/

lemma to_dict_from_dict (r : DaemonRecord) :
    Daemon.to_dict (Daemon.from_dict r) = some (lowercase_prog_ids r) := by
  simp only [Daemon.to_dict, Daemon.from_dict, Daemon.init, calculate_stats,
    lowercase_prog_ids, List.map_map]
  rfl

/-- C2 (amended): reconstructing a combatant from a well-formed record
and re-serializing it yields the original record with every program id
lowercased (`Program.to_dict` writes `self.id.lower()`); in particular
the round trip is the identity exactly on records whose program ids are
already lowercase.  All other fields — name, types, level, the persisted
stats, current hp, xp, xp-to-next, status condition and the remaining
program fields — are preserved. -/
theorem round_trip_lowercases_ids (r : DaemonRecord) :
    Daemon.to_dict (Daemon.from_dict r) = some (lowercase_prog_ids r) ∧
    ((∀ p ∈ r.programs, py_lower p.id = p.id) →
      Daemon.to_dict (Daemon.from_dict r) = some r) := by
  refine ⟨to_dict_from_dict r, fun h => ?_⟩
  rw [to_dict_from_dict r]
  have hmap : ∀ (l : List ProgramRecord), (∀ p ∈ l, py_lower p.id = p.id) →
      l.map (fun p => { p with id := py_lower p.id }) = l := by
    intro l
    induction l with
    | nil => intro _; rfl
    | cons p ps ih =>
      intro hl
      simp only [List.map_cons]
      rw [ih (fun q hq => hl q (List.mem_cons_of_mem _ hq))]
      have hid := hl p (List.mem_cons_self _ _)
      cases p
      simp_all
  unfold lowercase_prog_ids
  rw [hmap r.programs h]

/-- C2 witness: the amended round trip is the identity on the concrete
record `recGood`, whose program id `"z1"` is lowercase. -/
theorem round_trip_lowercases_ids_witness :
    (∀ p ∈ recGood.programs, py_lower (ProgramRecord.id p) = p.id) ∧
    Daemon.to_dict (Daemon.from_dict recGood) = some recGood :=
  ⟨by decide, (round_trip_lowercases_ids recGood).2 (by decide)⟩

/-- C2 counterexample: the record `recBad`, identical to `recGood` except
that its program id is `"Z1"`, does not round-trip: re-serialization
lowercases the id to `"z1"`, so `serialize(deserialize(record))` differs
from the record. -/
theorem round_trip_changes_uppercase_id :
    Daemon.to_dict (Daemon.from_dict recBad) ≠ some recBad := by
  rw [to_dict_from_dict recBad]
  decide

/-! ## C7: the capture chance -/

lemma min_chance_helper (r T n1 n2 b : ℚ) (hT : 0 < T) (hr : 0 ≤ r) (hb : 0 < b)
    (hn2 : 0 ≤ n2) (hlt : n2 < n1) :
    0 ≤ min 1 (r * (n2/T) * b) ∧
    min 1 (r * (n2/T) * b) ≤ min 1 (r * (n1/T) * b) ∧
    min 1 (r * (n1/T) * b) ≤ 1 ∧
    (0 < r → min 1 (r * (n2/T) * b) < 1 →
      min 1 (r * (n2/T) * b) < min 1 (r * (n1/T) * b)) := by
  have hraw2 : 0 ≤ r * (n2/T) * b :=
    mul_nonneg (mul_nonneg hr (div_nonneg hn2 hT.le)) hb.le
  have hdiv : n2/T ≤ n1/T := by
    exact (div_le_div_iff_of_pos_right hT).mpr hlt.le
  have hle : r * (n2/T) * b ≤ r * (n1/T) * b :=
    mul_le_mul_of_nonneg_right (mul_le_mul_of_nonneg_left hdiv hr) hb.le
  refine ⟨le_min (by norm_num) hraw2, min_le_min le_rfl hle, min_le_left _ _, ?_⟩
  intro hrpos hlt1
  have hraw2lt1 : r * (n2/T) * b < 1 := by
    by_contra hcon
    push_neg at hcon
    rw [min_eq_left hcon] at hlt1
    exact lt_irrefl _ hlt1
  have hmin2 : min 1 (r * (n2/T) * b) = r * (n2/T) * b := min_eq_right hraw2lt1.le
  have hstrict : r * (n2/T) * b < r * (n1/T) * b := by
    have hdivlt : n2/T < n1/T := (div_lt_div_iff_of_pos_right hT).mpr hlt
    exact mul_lt_mul_of_pos_right (mul_lt_mul_of_pos_left hdivlt hrpos) hb
  rcases le_or_lt 1 (r * (n1/T) * b) with hc | hc
  · rw [hmin2, min_eq_left hc]
    exact hraw2lt1
  · rw [hmin2, min_eq_right hc.le]
    exact hstrict

/-- C7 (amended): for every opponent with `0 < max_hp`, a non-negative
capture rate, and two HP values `0 ≤ h1 < h2 ≤ max_hp`, the capture
chance computed by `_calculate_capture_chance` lies in `[0, 1]` and
weakly increases as current HP decreases; the increase is strict whenever
the capture rate is positive and the chance at the higher HP is still
below the 1.0 cap.  (As stated the claim is false: the `min(1.0, ·)`
clamp makes the chance constant once the product exceeds 1, and a
non-positive capture rate makes it constant or negative — see the
counterexample.) -/
theorem capture_chance_bounds_monotone (d : Daemon) (h1 h2 : ℤ)
    (hM : 0 < d.max_hp) (h10 : 0 ≤ h1) (h12 : h1 < h2) (h2M : h2 ≤ d.max_hp)
    (hr : 0 ≤ d.capture_rate) :
    0 ≤ calculate_capture_chance { d with hp := h2 } ∧
    calculate_capture_chance { d with hp := h2 }
      ≤ calculate_capture_chance { d with hp := h1 } ∧
    calculate_capture_chance { d with hp := h1 } ≤ 1 ∧
    (0 < d.capture_rate → calculate_capture_chance { d with hp := h2 } < 1 →
      calculate_capture_chance { d with hp := h2 }
        < calculate_capture_chance { d with hp := h1 }) := by
  have hM' : (0 : ℚ) < (d.max_hp : ℚ) := by exact_mod_cast hM
  have hT : (0 : ℚ) < (d.max_hp : ℚ) * 3 := by linarith
  have h12' : (h1 : ℚ) < (h2 : ℚ) := by exact_mod_cast h12
  have h2M' : (h2 : ℚ) ≤ (d.max_hp : ℚ) := by exact_mod_cast h2M
  have hr' : (0 : ℚ) ≤ (d.capture_rate : ℚ) / 255 := by
    have : (0 : ℚ) ≤ (d.capture_rate : ℚ) := by exact_mod_cast hr
    positivity
  simp only [calculate_capture_chance]
  have hb : (0 : ℚ) <
      (if d.status_effect = some "LOCKED" then 2
       else if d.status_effect = some "CORRUPTED"
            ∨ d.status_effect = some "FRAGMENTED" then 3/2
       else 1) := by
    split_ifs <;> norm_num
  have hn2 : (0 : ℚ) ≤ (d.max_hp : ℚ) * 3 - (h2 : ℚ) * 2 := by linarith
  have hlt : (d.max_hp : ℚ) * 3 - (h2 : ℚ) * 2
      < (d.max_hp : ℚ) * 3 - (h1 : ℚ) * 2 := by linarith
  have key := min_chance_helper ((d.capture_rate : ℚ) / 255) ((d.max_hp : ℚ) * 3)
    ((d.max_hp : ℚ) * 3 - (h1 : ℚ) * 2) ((d.max_hp : ℚ) * 3 - (h2 : ℚ) * 2)
    _ hT hr' hb hn2 hlt
  refine ⟨key.1, key.2.1, key.2.2.1, fun hrp h1lt => key.2.2.2 ?_ h1lt⟩
  have : (0 : ℚ) < (d.capture_rate : ℚ) := by exact_mod_cast hrp
  positivity

/-- C7 witness: the amended theorem applied to `oppD` (capture rate 100,
max HP 70) at HP 20 versus HP 50. -/
theorem capture_chance_bounds_monotone_witness :
    (0 < oppD.max_hp ∧ 0 ≤ (20 : ℤ) ∧ (20 : ℤ) < 50 ∧ (50 : ℤ) ≤ oppD.max_hp ∧
     0 ≤ oppD.capture_rate) ∧
    calculate_capture_chance { oppD with hp := 50 }
      ≤ calculate_capture_chance { oppD with hp := 20 } :=
  ⟨by decide,
   (capture_chance_bounds_monotone oppD 20 50 (by decide) (by decide) (by decide)
     (by decide) (by decide)).2.1⟩

/-- C7 counterexample: with capture rate 200 and a LOCKED status the
clamped chance equals 1 both at 0 HP and at 5 HP of 20 — the chance does
*not* strictly increase when HP decreases from 5 to 0 — and a negative
capture rate yields a chance below 0, outside the claimed `[0, 1]`. -/
theorem capture_chance_not_strictly_monotone :
    calculate_capture_chance lockedOpp0 = calculate_capture_chance lockedOpp5 ∧
    lockedOpp0.hp < lockedOpp5.hp ∧
    0 < lockedOpp5.max_hp ∧ 0 ≤ lockedOpp0.hp ∧ lockedOpp5.hp ≤ lockedOpp5.max_hp ∧
    0 ≤ lockedOpp5.capture_rate ∧
    calculate_capture_chance negRateOpp < 0 := by
  refine ⟨?_, by decide, by decide, by decide, by decide, by decide, ?_⟩
  · show calculate_capture_chance lockedOpp0 = calculate_capture_chance lockedOpp5
    norm_num [calculate_capture_chance, lockedOpp0, lockedOpp5, oppD]
  · show calculate_capture_chance negRateOpp < 0
    norm_num [calculate_capture_chance, negRateOpp, oppD]
    split_ifs <;> norm_num

/-! ## C6: XP awards in increments versus in one lump sum -/

lemma level_loop_eq (d : Daemon) :
    level_loop d = if xp_needed d ≤ d.xp then level_loop (level_up d) else d := by
  rw [level_loop]
  split <;> rfl

lemma xp_needed_pos (d : Daemon) : 50 ≤ xp_needed d := by
  unfold xp_needed
  omega

lemma level_up_add_xp (d : Daemon) (b : ℤ) :
    level_up (add_xp d b) = add_xp (level_up d) b := by
  cases d
  simp only [level_up, add_xp, calculate_stats, xp_needed, Daemon.mk.injEq,
    true_and, and_true]
  ring

lemma level_loop_add_xp (b : ℤ) (hb : 0 ≤ b) :
    ∀ (n : ℕ) (d : Daemon), d.xp.toNat ≤ n →
      level_loop (add_xp (level_loop d) b) = level_loop (add_xp d b) := by
  intro n
  induction n with
  | zero =>
    intro d hd
    have hguard : ¬ xp_needed d ≤ d.xp := by
      have := xp_needed_pos d
      omega
    rw [level_loop_eq d, if_neg hguard]
  | succ n ih =>
    intro d hd
    by_cases hg : xp_needed d ≤ d.xp
    · have hg2 : xp_needed (add_xp d b) ≤ (add_xp d b).xp := by
        simp only [add_xp, xp_needed] at *
        omega
      have hmeas : (level_up d).xp.toNat ≤ n := by
        have h50 := xp_needed_pos d
        have hxp : (level_up d).xp = d.xp - xp_needed d := by
          cases d
          simp [level_up, calculate_stats]
        omega
      rw [level_loop_eq d, if_pos hg, level_loop_eq (add_xp d b), if_pos hg2,
        level_up_add_xp, ih (level_up d) hmeas]
    · rw [level_loop_eq d, if_neg hg]

lemma gain_xp_gain_xp (d : Daemon) (a b : ℤ) (hb : 0 ≤ b) :
    gain_xp (gain_xp d a) b = gain_xp d (a + b) := by
  show level_loop (add_xp (level_loop (add_xp d a)) b) = _
  rw [level_loop_add_xp b hb (add_xp d a).xp.toNat (add_xp d a) le_rfl]
  show level_loop (add_xp (add_xp d a) b) = level_loop (add_xp d (a + b))
  congr 1
  cases d
  simp only [add_xp, Daemon.mk.injEq, true_and, and_true]
  ring

/-- C6: awarding a non-empty finite collection of non-negative XP amounts
one call of `gain_xp` at a time produces exactly the same final daemon
state — level, derived stats, remaining xp and (level-up-restored) hp —
as awarding the collection's sum in a single `gain_xp` call; in
particular the single large award crosses every level threshold the
incremental awards cross, each level-up restoring HP to the new maximum. -/
theorem gain_xp_lump_sum (d : Daemon) (amounts : List ℤ)
    (hne : amounts ≠ []) (h : ∀ a ∈ amounts, 0 ≤ a) :
    amounts.foldl gain_xp d = gain_xp d amounts.sum := by
  induction amounts generalizing d with
  | nil => exact absurd rfl hne
  | cons a rest ih =>
    rcases rest with _ | ⟨b, rest2⟩
    · simp
    · have hsum : 0 ≤ (b :: rest2).sum := by
        have : ∀ x ∈ (b :: rest2), (0:ℤ) ≤ x :=
          fun x hx => h x (List.mem_cons_of_mem _ hx)
        have : ∀ (l : List ℤ), (∀ x ∈ l, (0:ℤ) ≤ x) → 0 ≤ l.sum := by
          intro l
          induction l with
          | nil => simp
          | cons y ys ihy =>
            intro hy
            simp only [List.sum_cons]
            have h1 := hy y (List.mem_cons_self _ _)
            have h2 := ihy (fun x hx => hy x (List.mem_cons_of_mem _ hx))
            omega
        exact this _ (fun x hx => h x (List.mem_cons_of_mem _ hx))
      have step : (b :: rest2).foldl gain_xp (gain_xp d a)
          = gain_xp (gain_xp d a) (b :: rest2).sum :=
        ih (gain_xp d a) (by simp) (fun x hx => h x (List.mem_cons_of_mem _ hx))
      calc (a :: b :: rest2).foldl gain_xp d
          = (b :: rest2).foldl gain_xp (gain_xp d a) := by simp [List.foldl_cons]
        _ = gain_xp (gain_xp d a) (b :: rest2).sum := step
        _ = gain_xp d (a + (b :: rest2).sum) := gain_xp_gain_xp d a _ hsum
        _ = gain_xp d (a :: b :: rest2).sum := by simp

/-- C6 witness: a fresh level-1 Virulet awarded 150 then 200 XP equals
the same daemon awarded 350 XP at once. -/
theorem gain_xp_lump_sum_witness :
    (([150, 200] : List ℤ) ≠ [] ∧ ∀ a ∈ ([150, 200] : List ℤ), 0 ≤ a) ∧
    ([150, 200] : List ℤ).foldl gain_xp lvlD = gain_xp lvlD ([150, 200] : List ℤ).sum :=
  ⟨⟨by decide, by decide⟩, gain_xp_lump_sum lvlD [150, 200] (by decide) (by decide)⟩

/-! ## C5 (amended): the opponent AI is uniform regardless of HP -/

lemma calculate_damage_some (self : Daemon) (program : Program) (target : Daemon)
    (variance : ℚ) (h : target.defense ≠ 0) :
    ∃ dmg, calculate_damage self program target variance = some dmg := by
  unfold calculate_damage
  simp only [if_neg h]
  exact ⟨_, rfl⟩

/-- C5 (amended): for every opponent with at least one known program and
every choice draw, `_opponent_turn` uses the program at index
`draw % (number of programs)` — a uniform choice over the known programs
— *independently of the opponent's current HP*: the emitted event names
that program whether it hits or misses.  (As stated the claim is false:
there is no low-HP highest-power policy, `random.choice` is used at every
HP value — see the counterexample.) -/
theorem opponent_selection_uniform (c : Combat) (odraw : ℕ) (oacc : ℤ) (ovar : ℚ)
    (hne : c.opponent_daemon.programs ≠ []) (hdef : c.player_daemon.defense ≠ 0) :
    ∃ prog, c.opponent_daemon.programs.get?
        (odraw % c.opponent_daemon.programs.length) = some prog ∧
      ((opponent_turn c odraw oacc ovar).1 = [Event.opponent_missed prog.name] ∨
       ∃ od, (opponent_turn c odraw oacc ovar).1 = [Event.opponent_used prog.name od]) := by
  have hlen : 0 < c.opponent_daemon.programs.length := List.length_pos.mpr hne
  have hidx : odraw % c.opponent_daemon.programs.length
      < c.opponent_daemon.programs.length := Nat.mod_lt _ hlen
  have hget : c.opponent_daemon.programs.get?
      (odraw % c.opponent_daemon.programs.length)
      = some (c.opponent_daemon.programs.get ⟨_, hidx⟩) := List.get?_eq_get hidx
  set prog := c.opponent_daemon.programs.get ⟨_, hidx⟩ with hprog
  have hgetD : c.opponent_daemon.programs.getD
      (odraw % c.opponent_daemon.programs.length) dummy_program = prog := by
    simp [List.getD, ← List.get?_eq_getElem?, hget]
  have hmem : prog ∈ c.opponent_daemon.programs := List.get_mem _ _ _
  refine ⟨prog, hget, ?_⟩
  unfold opponent_turn
  rw [if_neg hne]
  simp only [hgetD]
  unfold use_program
  rw [if_neg (not_not_intro hmem)]
  by_cases hacc : prog.accuracy < oacc
  · rw [if_pos hacc]
    exact Or.inl rfl
  · rw [if_neg hacc]
    by_cases he : prog.effect = "damage"
    · rw [if_pos he]
      obtain ⟨dmg, hdmg⟩ := calculate_damage_some c.opponent_daemon prog c.player_daemon ovar hdef
      rw [hdmg]
      exact Or.inr ⟨some dmg, rfl⟩
    · rw [if_neg he]
      by_cases hd2 : prog.effect = "defend"
      · rw [if_pos hd2]
        exact Or.inr ⟨none, rfl⟩
      · rw [if_neg hd2]
        by_cases hd3 : prog.effect = "special"
        · rw [if_pos hd3]
          exact Or.inr ⟨none, rfl⟩
        · rw [if_neg hd3]
          exact Or.inl rfl

/-- C5 witness: the amended theorem at the low-HP opponent `cLowHp` with
draw 1 — the selection is determined by the draw (here the second,
power-90 program), not by the HP threshold. -/
theorem opponent_selection_uniform_witness :
    (cLowHp.opponent_daemon.programs ≠ [] ∧ cLowHp.player_daemon.defense ≠ 0) ∧
    ∃ prog, cLowHp.opponent_daemon.programs.get?
        (1 % cLowHp.opponent_daemon.programs.length) = some prog ∧
      ((opponent_turn cLowHp 1 100 1).1 = [Event.opponent_missed prog.name] ∨
       ∃ od, (opponent_turn cLowHp 1 100 1).1 = [Event.opponent_used prog.name od]) :=
  ⟨⟨by decide, by decide⟩,
   opponent_selection_uniform cLowHp 1 100 1 (by decide) (by decide)⟩

/-! ## C3: turn order -/

lemma events_withEvents (pre : List Event) (r : PTResult) :
    (r.withEvents pre).events = pre ++ r.events := by
  cases r <;> rfl

lemma player_turn_events_not_opponent (c : Combat) (roster : List Daemon)
    (pds : List PDecision) :
    ∀ e ∈ (player_turn c roster pds).events, e.isOpponentAction = false := by
  induction pds with
  | nil =>
    intro e he
    simp [player_turn, PTResult.events] at he
  | cons d rest ih =>
    intro e he
    cases d with
    | fight raw acc var =>
      simp only [player_turn] at he
      split at he
      · simp [PTResult.events] at he
        subst he
        rfl
      · split at he
        · split at he
          · simp [PTResult.events] at he
          · split at he <;>
            · simp [PTResult.events] at he
              subst he
              rfl
        · rw [events_withEvents] at he
          rcases List.mem_append.mp he with h1 | h2
          · simp at h1
            subst h1
            rfl
          · exact ih e h2
    | switch raw =>
      simp only [player_turn] at he
      split at he
      · rw [events_withEvents] at he
        rcases List.mem_append.mp he with h1 | h2
        · simp at h1
          subst h1
          rfl
        · exact ih e h2
      · split at he
        · simp [PTResult.events] at he
          subst he
          rfl
        · rw [events_withEvents] at he
          rcases List.mem_append.mp he with h1 | h2
          · simp at h1
            subst h1
            rfl
          · exact ih e h2
    | capture roll =>
      simp only [player_turn] at he
      split at he
      · rw [events_withEvents] at he
        rcases List.mem_append.mp he with h1 | h2
        · simp at h1
          subst h1
          rfl
        · exact ih e h2
      · split at he <;>
        · simp [PTResult.events] at he
          rcases he with rfl | rfl <;> rfl
    | run roll =>
      simp only [player_turn] at he
      split at he <;>
      · simp [PTResult.events] at he
        subst he
        rfl
    | invalid =>
      simp only [player_turn] at he
      rw [events_withEvents] at he
      rcases List.mem_append.mp he with h1 | h2
      · simp at h1
        subst h1
        rfl
      · exact ih e h2

lemma opponent_turn_events_not_player (c : Combat) (odraw : ℕ) (oacc : ℤ) (ovar : ℚ) :
    ∀ e ∈ (opponent_turn c odraw oacc ovar).1, e.isPlayerAction = false := by
  intro e he
  simp only [opponent_turn] at he
  split at he
  · simp at he
    subst he
    rfl
  · split at he
    · simp at he
    · split at he <;>
      · simp at he
        subst he
        rfl

/-- C3 (amended): in every iteration of the combat loop the player's
action executes before the opponent's, whatever the two combatants'
speeds or status conditions: the event trace of `combat_turn` splits into
a prefix containing no opponent action and a suffix containing no player
action.  (As stated the claim is false: `Combat.start` never compares
speeds — see the counterexample, where the opponent is faster yet the
player still acts first.) -/
theorem player_acts_before_opponent (c0 : Combat) (roster : List Daemon)
    (pds : List PDecision) (odraw : ℕ) (oacc : ℤ) (ovar : ℚ) :
    ∃ p q, (combat_turn c0 roster pds odraw oacc ovar).1 = p ++ q ∧
      (∀ e ∈ p, e.isOpponentAction = false) ∧
      (∀ e ∈ q, e.isPlayerAction = false) := by
  unfold combat_turn
  have hpl := player_turn_events_not_opponent
    { c0 with turn := c0.turn + 1 } roster pds
  rcases hpt : player_turn { c0 with turn := c0.turn + 1 } roster pds with
    ⟨c1, evs, b⟩ | evs | evs
  · rw [hpt] at hpl
    simp only [PTResult.events] at hpl
    cases b with
    | true =>
      simp only [hpt]
      exact ⟨evs, [], by simp, hpl, by simp⟩
    | false =>
      simp only [hpt]
      by_cases hf : is_fainted c1.opponent_daemon = true
      · rw [if_pos hf]
        exact ⟨evs, [.opponent_defeated], rfl, hpl,
          by intro e he; simp at he; subst he; rfl⟩
      · rw [if_neg hf]
        have hop := opponent_turn_events_not_player c1 odraw oacc ovar
        rcases hot : opponent_turn c1 odraw oacc ovar with ⟨oevs, ores⟩
        rw [hot] at hop
        simp only at hop
        cases ores with
        | err =>
          simp only [hot]
          exact ⟨evs, oevs, rfl, hpl, hop⟩
        | ok c2 =>
          simp only [hot]
          by_cases hf2 : is_fainted c2.player_daemon = true
          · rw [if_pos hf2]
            by_cases hh : (roster.any fun d => !(is_fainted d)) = true
            · rw [if_pos hh]
              refine ⟨evs, oevs ++ [.player_defeated_choose_another, .all_daemons_defeated],
                by simp, hpl, ?_⟩
              intro e he
              rcases List.mem_append.mp he with h1 | h2
              · exact hop e h1
              · simp at h2
                rcases h2 with rfl | rfl <;> rfl
            · rw [if_neg hh]
              refine ⟨evs, oevs ++ [.all_daemons_defeated], by simp, hpl, ?_⟩
              intro e he
              rcases List.mem_append.mp he with h1 | h2
              · exact hop e h1
              · simp at h2
                subst h2
                rfl
          · rw [if_neg hf2]
            exact ⟨evs, oevs, rfl, hpl, hop⟩
  · rw [hpt] at hpl
    simp only [PTResult.events] at hpl
    simp only [hpt]
    exact ⟨evs, [], by simp, hpl, by simp⟩
  · rw [hpt] at hpl
    simp only [PTResult.events] at hpl
    simp only [hpt]
    exact ⟨evs, [], by simp, hpl, by simp⟩

/-- C3 counterexample: in the concrete encounter `cEx` the opponent's
speed (100) strictly exceeds the player's (10), neither combatant has a
status condition (so effective speed = speed), yet the turn trace begins
with the player's action and the opponent acts second — the faster
combatant does *not* act first. -/
theorem faster_opponent_does_not_act_first :
    playerD.speed < oppD.speed ∧
    playerD.status_effect = none ∧ oppD.status_effect = none ∧
    (combat_turn cEx [playerD] [.fight 1 50 1] 0 50 1).1
      = [Event.player_used "Zap" (some 4), Event.opponent_used "Boop" (some 18)] := by
  refine ⟨by decide, by decide, by decide, ?_⟩
  have hu1 : py_upper "VIRUS" = "VIRUS" := by decide
  have hu2 : py_upper "SHELL" = "SHELL" := by decide
  have e1 : ("SHELL" == "VIRUS") = false := by decide
  have e2 : ("SHELL" == "FIREWALL") = false := by decide
  have e3 : ("SHELL" == "CRYPTO") = false := by decide
  have e4 : ("SHELL" == "TROJAN") = false := by decide
  have e5 : ("SHELL" == "NEURAL") = false := by decide
  have e6 : ("SHELL" == "SHELL") = true := by decide
  have e7 : ("VIRUS" == "VIRUS") = true := by decide
  have e8 : ("VIRUS" == "SHELL") = false := by decide
  have e9 : ("VIRUS" == "FIREWALL") = false := by decide
  have e10 : ("VIRUS" == "CRYPTO") = false := by decide
  have e11 : ("VIRUS" == "TROJAN") = false := by decide
  have e12 : ("VIRUS" == "NEURAL") = false := by decide
  norm_num [combat_turn, player_turn, opponent_turn, use_program, calculate_damage,
    type_effect_mult, chartRow, TYPE_CHART, hu1, hu2, pyInt, is_fainted,
    List.lookup, cEx, playerD, oppD, zap, boop,
    e1, e2, e3, e4, e5, e6, e7, e8, e9, e10, e11, e12]

/-! ## C4: fainting with a healthy roster member -/

/-- C4 (code-bug evidence): in the concrete state `cFaint` the active
daemon is fainted while the roster still holds the healthy `healthyD`
(`has_healthy` is `True`), yet the combat-loop iteration *ends the
encounter* (`Combat.start` prints "Choose another daemon!", then — in the
very branch where `has_healthy` is true — prints "All your daemons have
been defeated!" and returns `False`; the comment at src/combat.py lines
56-57 reads "Switch daemon logic would go here / For now, just end
combat").  The spec's forced-switch-and-continue behavior is the
documented intent; the code ends in defeat regardless. -/
theorem faint_with_healthy_roster_ends_encounter :
    ([faintedD, healthyD].any (fun d => !(is_fainted d)) = true) ∧
    combat_turn cFaint [faintedD, healthyD] [.run 1] 0 1 1
      = ([Event.run_fail, Event.opponent_no_programs,
          Event.player_defeated_choose_another, Event.all_daemons_defeated],
         .lost { cFaint with turn := 1 }) := by
  constructor
  · decide
  · norm_num [combat_turn, player_turn, opponent_turn, try_to_run, is_fainted,
      cFaint, faintedD, healthyD, oppNoProg, oppD, playerD, zap, boop]

end CNRD
